import Mathlib

/-
Verification development for the Nap-Works backend (Express + Mongoose REST
service).  The definitions below shallowly embed the request handlers of
src/backend/routes/auth.js, src/backend/routes/posts.js (second, canonical
draft) and src/backend/middleware/auth.js, together with deterministic models
of the external collaborators they delegate to (bcrypt, jsonwebtoken, multer,
the MongoDB query engine and the express-validator rules).
-/

set_option maxHeartbeats 1000000

namespace NapWorks

/-! ## Character-list utilities modelling the JavaScript string operations -/

/-- Whitespace recogniser for the trim sanitizers used by the routes. -/
def isWsChar (c : Char) : Bool :=
  c = ' ' || c = '\t' || c = '\n' || c = '\r'

/-- Model of JavaScript String.prototype.trim (as invoked by the
express-validator trim sanitizer): strip leading and trailing whitespace. -/
def trimChars (l : List Char) : List Char :=
  ((l.dropWhile isWsChar).reverse.dropWhile isWsChar).reverse

def strTrim (s : String) : String := ⟨trimChars s.data⟩

/-- Model of String.prototype.toLowerCase, restricted to ASCII case mapping. -/
def strLower (s : String) : String := ⟨s.data.map Char.toLower⟩

/-- listStarts pat l holds when pat is an initial segment of l. -/
def listStarts : List Char → List Char → Bool
  | [], _ => true
  | _ :: _, [] => false
  | p :: ps, c :: cs => p = c && listStarts ps cs

/-- listHasSub pat l holds when pat occurs as a contiguous substring of l. -/
def listHasSub (pat : List Char) : List Char → Bool
  | [] => pat.isEmpty
  | c :: cs => listStarts pat (c :: cs) || listHasSub pat cs

/-- Model of JavaScript String.prototype.replace with a string pattern:
only the first occurrence of pat is replaced by repl. -/
def replaceFirstL (pat repl : List Char) : List Char → List Char
  | [] => []
  | c :: cs =>
    if listStarts pat (c :: cs) then repl ++ (c :: cs).drop pat.length
    else c :: replaceFirstL pat repl cs

def replaceFirstStr (pat repl s : String) : String :=
  ⟨replaceFirstL pat.data repl.data s.data⟩

def strHasSub (pat s : String) : Bool := listHasSub pat.data s.data

/-- Model of JavaScript String.prototype.split with a one-character
separator. -/
def splitOnChar (sep : Char) : List Char → List (List Char)
  | [] => [[]]
  | c :: cs =>
    match splitOnChar sep cs with
    | [] => if c = sep then [[], []] else [[c]]
    | h :: t => if c = sep then [] :: h :: t else (c :: h) :: t

def strSplitOn (sep : Char) (s : String) : List String :=
  (splitOnChar sep s.data).map (fun cs => ⟨cs⟩)

def digitVal (c : Char) : Nat := c.toNat - 48

/-- Decimal parser for the numeric components of the token encoding. -/
def natFromChars (l : List Char) : Option Nat :=
  if !l.isEmpty && l.all Char.isDigit then
    some (l.foldl (fun a c => a * 10 + digitVal c) 0)
  else none

def natFromStr (s : String) : Option Nat := natFromChars s.data

/-! ## Models of the external credential libraries (bcrypt, jsonwebtoken) -/

/-- Cost factor used by routes/auth.js (SALT_ROUNDS = 10). -/
def SALT_ROUNDS : Nat := 10

/-- Model of bcrypt.hash: a deterministic stand-in for the salted one-way
hash; the cost factor is recorded in the output. -/
def bcryptHash (password : String) : String :=
  "$2b$" ++ Nat.repr SALT_ROUNDS ++ "$" ++ password

/-- Model of bcrypt.compare: succeeds exactly when the stored hash is the
hash of the submitted password. -/
def bcryptCompare (password hash : String) : Bool :=
  hash = bcryptHash password

/-- Decoded token payload: routes sign jwt.sign with the object containing
the user id. -/
structure JwtPayload where
  id : Nat
deriving Repr, DecidableEq

/-- Model of jwt.sign: encodes the payload id, the expiry instant and the
signing secret into the token string (the secret placed last so that any
secret round-trips). -/
def jwtSign (id : Nat) (secret : String) (exp : Nat) : String :=
  "jwt:" ++ Nat.repr id ++ ":" ++ Nat.repr exp ++ ":" ++ secret

/-- Model of jwt.verify at time now: decodes the token produced by jwtSign,
checks the signature secret and that the token is not expired; returns the
decoded payload on success and none on any failure. -/
def jwtVerify (token secret : String) (now : Nat) : Option JwtPayload :=
  match strSplitOn ':' token with
  | "jwt" :: idStr :: expStr :: rest =>
    match natFromStr idStr, natFromStr expStr with
    | some i, some e =>
      if String.intercalate ":" rest = secret ∧ now < e then some ⟨i⟩ else none
    | _, _ => none
  | _ => none

/-! ## Token Verifier: embedding of src/backend/middleware/auth.js -/

/-- Result of the auth middleware: either the decoded payload is attached to
the request (req.user = decoded) or a 401 response is sent.  The middleware
never consults the credential store: the definition of auth below takes no
user-store argument, identity comes from the token payload alone. -/
inductive AuthResult where
  | ok (user : JwtPayload) : AuthResult
  | unauthorized (status : Nat) (error : String) : AuthResult
deriving Repr, DecidableEq

/-- Embedding of the auth middleware: the Authorization header (if any) has
its first occurrence of the literal substring Bearer-space removed by
String.prototype.replace, a falsy (missing or empty) token yields 401, and
otherwise jwt.verify decides between attaching the payload and a 401. -/
def auth (secret : String) (now : Nat) (hdr : Option String) : AuthResult :=
  match hdr with
  | none => .unauthorized 401 "Authentication required"
  | some h =>
    let token := replaceFirstStr "Bearer " "" h
    if token.data.isEmpty then .unauthorized 401 "Authentication required"
    else
      match jwtVerify token secret now with
      | some payload => .ok payload
      | none => .unauthorized 401 "Invalid token"

/-- The token the middleware extracts from the Authorization header: none
when the header is absent or the stripped value is empty (falsy). -/
def extractToken (hdr : Option String) : Option String :=
  match hdr with
  | none => none
  | some h =>
    let t := replaceFirstStr "Bearer " "" h
    if t.data.isEmpty then none else some t

/-! ## Auth Service: embedding of src/backend/routes/auth.js -/

/-- Stored user record (name, email, hashed password, database id). -/
structure User where
  id : Nat
  name : String
  email : String
  password : String
deriving Repr, DecidableEq

/-- Model of the express-validator isEmail check: one at-sign separating a
non-empty local part from a domain that has at least two non-empty
dot-separated labels. -/
def isEmailB (s : String) : Bool :=
  match splitOnChar '@' s.data with
  | [lpart, dpart] =>
    !lpart.isEmpty && !dpart.isEmpty &&
      (let labels := splitOnChar '.' dpart
       labels.length ≥ 2 && labels.all (fun l => !l.isEmpty))
  | _ => false

/-- Model of the normalizeEmail sanitizer composed with the trim sanitizer:
case and surrounding-whitespace normalization. -/
def emNorm (email : String) : String := strLower (strTrim email)

/-- Password rule of signupValidation: length at least 6, at least one
letter and one digit. -/
def passwordValid (p : String) : Bool :=
  decide (6 ≤ p.data.length) && p.data.any Char.isAlpha && p.data.any Char.isDigit

/-- signupValidation: name trimmed non-empty, email well-formed after trim,
password passing the password rule. -/
def signupValidationOk (name email password : String) : Bool :=
  !(strTrim name).data.isEmpty && isEmailB (strTrim email) && passwordValid password

/-- loginValidation: email well-formed after trim, password non-empty. -/
def loginValidationOk (email password : String) : Bool :=
  isEmailB (strTrim email) && !password.data.isEmpty

/-- Model of User.findOne on an email key over the credential store. -/
def findOne (store : List User) (em : String) : Option User :=
  store.find? (fun u => u.email = em)

/-- Outcome of the signup handler. -/
inductive SignupOut where
  | badValidation : SignupOut
  | emailExists : SignupOut
  | created (token : String) (user : List (String × String)) : SignupOut
deriving Repr, DecidableEq

/-- HTTP status sent for each signup outcome. -/
def signupStatus : SignupOut → Nat
  | .badValidation => 400
  | .emailExists => 400
  | .created _ _ => 201

/-- message field of the JSON envelope for each signup outcome. -/
def signupMessage : SignupOut → String
  | .badValidation => "Validation failed"
  | .emailExists => "Email already exists"
  | .created _ _ => "User registered successfully"

/-- Embedding of the POST /signup handler: run signupValidation, reject a
duplicate normalized email, otherwise hash the password, persist the user,
sign a one-hour token and answer 201 with token plus the id/name/email
summary. uid models the database-assigned id of the new record. -/
def signup (store : List User) (name email password secret : String)
    (now uid : Nat) : SignupOut × List User :=
  if signupValidationOk name email password then
    let em := emNorm email
    match findOne store em with
    | some _ => (.emailExists, store)
    | none =>
      let u : User :=
        { id := uid, name := strTrim name, email := em, password := bcryptHash password }
      (.created (jwtSign uid secret (now + 3600))
        [("id", Nat.repr uid), ("name", strTrim name), ("email", em)],
       store ++ [u])
  else (.badValidation, store)

/-- Outcome of the login handler; authFailed carries the literal status,
message and error fields the handler sends. -/
inductive LoginOut where
  | badValidation : LoginOut
  | authFailed (status : Nat) (message : String) (error : String) : LoginOut
  | ok (status : Nat) (token : String) (user : List (String × String)) : LoginOut
deriving Repr, DecidableEq

/-- Embedding of the POST /login handler: run loginValidation, look the
normalized email up in the credential store, compare the password against
the stored hash, and either send the generic 401 failure or a fresh token
with the id/name/email summary. -/
def login (store : List User) (email password secret : String) (now : Nat) : LoginOut :=
  if loginValidationOk email password then
    let em := emNorm email
    match findOne store em with
    | none => .authFailed 401 "Authentication failed" "Invalid email or password"
    | some u =>
      if bcryptCompare password u.password then
        .ok 200 (jwtSign u.id secret (now + 3600))
          [("id", Nat.repr u.id), ("name", u.name), ("email", em)]
      else .authFailed 401 "Authentication failed" "Invalid email or password"
  else .badValidation

/-! ## Post Service: embedding of src/backend/routes/posts.js (second draft,
the canonical one per the spec) -/

/-- Stored post record. -/
structure Post where
  userId : String
  postName : String
  description : String
  uploadTime : Nat
  tags : List String
  imagePath : Option String
deriving Repr, DecidableEq

/-- Uploaded file as multer sees it: original client file name, declared
content type, and byte size. -/
structure UploadFile where
  originalname : String
  mimetype : String
  size : Nat
deriving Repr, DecidableEq

/-- Model of path.extname: the suffix of the name from its last dot on; the
empty string when there is no dot or the only dot is the leading
character. -/
def extname (s : String) : String :=
  match splitOnChar '.' s.data with
  | [] => ""
  | [_] => ""
  | [[], _] => ""
  | parts => ⟨'.' :: parts.getLastD []⟩

/-- The regular expression jpeg-or-jpg-or-png of the multer fileFilter: an
unanchored test, true when the string merely contains one of the three
alternatives as a substring. -/
def filetypesTest (s : String) : Bool :=
  strHasSub "jpeg" s || strHasSub "jpg" s || strHasSub "png" s

/-- The multer fileFilter: accept only when both the lowercased extension
and the mimetype pass the unanchored jpeg-or-jpg-or-png test. -/
def fileFilter (f : UploadFile) : Bool :=
  filetypesTest (strLower (extname f.originalname)) && filetypesTest f.mimetype

/-- The 5 MiB multer fileSize limit (5 * 1024 * 1024 bytes). -/
def FILE_SIZE_LIMIT : Nat := 5 * 1024 * 1024

/-- Result of the upload.single middleware: the optional accepted file, a
MulterError LIMIT_FILE_SIZE abort, or the plain Error thrown by the
fileFilter (which is not a MulterError). -/
inductive MulterOutcome where
  | ok (file : Option UploadFile) : MulterOutcome
  | tooLarge : MulterOutcome
  | rejected : MulterOutcome
deriving Repr, DecidableEq

/-- Model of upload.single: no file passes through; a file is first vetted
by the fileFilter and then by the size limit. -/
def multerSingle (img : Option UploadFile) : MulterOutcome :=
  match img with
  | none => .ok none
  | some f =>
    if !fileFilter f then .rejected
    else if FILE_SIZE_LIMIT < f.size then .tooLarge
    else .ok (some f)

/-- Multipart body of a CreatePost request as the handler reads it. -/
structure CreatePostReq where
  userId : Option String
  postName : Option String
  description : Option String
  tags : Option (List String)
  image : Option UploadFile
deriving Repr, DecidableEq

/-- The postValidation rules: userId non-empty, postName and description
trimmed non-empty (tags, when present, already typed as a string array). -/
def postBodyValid (req : CreatePostReq) : Bool :=
  (match req.userId with | some u => !u.data.isEmpty | none => false) &&
  (match req.postName with | some s => !(strTrim s).data.isEmpty | none => false) &&
  (match req.description with | some s => !(strTrim s).data.isEmpty | none => false)

/-- Outcome of the POST /posts pipeline, one constructor per response the
route (or the router-level error handler) can send. -/
inductive CreateOutcome where
  | validationFailed : CreateOutcome
  | forbidden : CreateOutcome
  | fileTooLarge : CreateOutcome
  | filterRejected : CreateOutcome
  | created (p : Post) : CreateOutcome
deriving Repr, DecidableEq

/-- HTTP status of each CreatePost outcome: a MulterError is mapped to 400
File-upload-error by the router error handler, while the plain Error thrown
by the fileFilter falls through to the 500 Internal-server-error branch. -/
def createStatus : CreateOutcome → Nat
  | .validationFailed => 400
  | .forbidden => 403
  | .fileTooLarge => 400
  | .filterRejected => 500
  | .created _ => 201

/-- message field of the JSON envelope for each CreatePost outcome. -/
def createMessage : CreateOutcome → String
  | .validationFailed => "Validation failed"
  | .forbidden => "Unauthorized"
  | .fileTooLarge => "File upload error"
  | .filterRejected => "Internal server error"
  | .created _ => "Post created successfully"

/-- Embedding of the POST /posts pipeline after the auth middleware:
upload.single runs first (its errors skip the handler and reach the router
error handler), then postValidation, then the ownership check against the
authenticated id, and finally the post record is built and persisted. -/
def createPost (authId : String) (req : CreatePostReq) (now : Nat)
    (store : List Post) : CreateOutcome × List Post :=
  match multerSingle req.image with
  | .rejected => (.filterRejected, store)
  | .tooLarge => (.fileTooLarge, store)
  | .ok file =>
    match req.userId, req.postName, req.description with
    | some uid, some pn, some ds =>
      if uid.data.isEmpty || (strTrim pn).data.isEmpty || (strTrim ds).data.isEmpty then
        (.validationFailed, store)
      else if authId ≠ uid then (.forbidden, store)
      else
        let p : Post :=
          { userId := uid, postName := strTrim pn, description := strTrim ds,
            uploadTime := now, tags := req.tags.getD [],
            imagePath := file.map
              (fun fl => "/uploads/image-" ++ Nat.repr now ++ extname fl.originalname) }
        (.created p, store ++ [p])
    | _, _, _ => (.validationFailed, store)

/-! ## ListPosts: embedding of GET /posts (filters, sort, pagination) -/

/-- Query parameters of GET /posts after searchValidation: dates are
already-parsed instants, page and limit carry their defaults when absent. -/
structure Filters where
  searchText : Option String
  startDate : Option Nat
  endDate : Option Nat
  tags : Option String
  page : Nat
  limit : Nat
deriving Repr, DecidableEq

/-- Case-insensitive substring test modelling the case-insensitive regex
match of the searchText filter. -/
def caselessHas (hay pat : String) : Bool :=
  listHasSub (strLower pat).data (strLower hay).data

/-- The MongoDB selection predicate the handler builds: searchText matches
name or description case-insensitively, the dates bound uploadTime
inclusively, and the comma-split trimmed tag list must meet the post tag
set.  An empty searchText or tags string is falsy in JavaScript, so the
corresponding filter is simply not installed. -/
def postMatches (f : Filters) (p : Post) : Bool :=
  (match f.searchText with
   | none => true
   | some s => s.data.isEmpty || caselessHas p.postName s || caselessHas p.description s) &&
  (match f.startDate with | none => true | some d => decide (d ≤ p.uploadTime)) &&
  (match f.endDate with | none => true | some d => decide (p.uploadTime ≤ d)) &&
  (match f.tags with
   | none => true
   | some ts =>
     ts.data.isEmpty ||
       ((strSplitOn ',' ts).map strTrim).any (fun tg => p.tags.contains tg))

/-- Sort key relation of the query: sort by uploadTime descending. -/
def byUploadDesc (a b : Post) : Prop := b.uploadTime ≤ a.uploadTime

instance : DecidableRel byUploadDesc := fun a b => Nat.decLe b.uploadTime a.uploadTime

instance : IsTotal Post byUploadDesc :=
  ⟨fun a b => Nat.le_total b.uploadTime a.uploadTime⟩

instance : IsTrans Post byUploadDesc :=
  ⟨fun _ _ _ hab hbc => le_trans hbc hab⟩

/-- What the sort stage of the MongoDB query guarantees: the result is a
permutation of the selected documents, pairwise ordered by uploadTime
descending.  No secondary sort key appears in the query, so nothing more is
guaranteed; any function with this property is a legitimate behaviour of the
database. -/
def mongoSortModel (impl : List Post → List Post) : Prop :=
  ∀ l : List Post, (impl l).Perm l ∧ (impl l).Pairwise byUploadDesc

/-- One legitimate database behaviour: a stable insertion sort. -/
def sortByUpload : List Post → List Post := List.insertionSort byUploadDesc

/-- Another legitimate database behaviour: sort the reversed list, which
reverses the relative order of documents with equal uploadTime. -/
def sortAlt : List Post → List Post := fun l => List.insertionSort byUploadDesc l.reverse

/-- Embedding of Math.ceil(total / limit) on naturals (for positive limit). -/
def pagesOf (total limit : Nat) : Nat := (total + limit - 1) / limit

/-- Outcome of GET /posts: the 400 date-range rejection, or the 200 data
envelope with posts, total, page, pages and limit. -/
inductive ListOutcome where
  | badRequest (message : String) (error : String) : ListOutcome
  | ok (posts : List Post) (total page pages limit : Nat) : ListOutcome
deriving Repr, DecidableEq

/-- HTTP status of each ListPosts outcome. -/
def listStatus : ListOutcome → Nat
  | .badRequest _ _ => 400
  | .ok _ _ _ _ _ => 200

/-- The handler's explicit date-range check: both dates present and
startDate strictly after endDate. -/
def dateRangeInvalid (f : Filters) : Bool :=
  match f.startDate, f.endDate with
  | some s, some e => decide (e < s)
  | _, _ => false

/-- Embedding of the GET /posts handler, parameterised by the database sort
behaviour: reject an inverted date range, otherwise select the matching
posts, sort them by uploadTime descending, and slice with
skip = (page - 1) * limit and the limit, answering with the slice, the
total matching count, and pages = ceil(total / limit). -/
def getPostsWith (sortImpl : List Post → List Post) (store : List Post)
    (f : Filters) : ListOutcome :=
  if dateRangeInvalid f then
    .badRequest "Invalid date range" "startDate cannot be after endDate"
  else
    let matching := store.filter (postMatches f)
    let sorted := sortImpl matching
    let posts := (sorted.drop ((f.page - 1) * f.limit)).take f.limit
    .ok posts matching.length f.page (pagesOf matching.length f.limit) f.limit

/-! ## Concrete request and store instances used to evaluate the handlers -/

/-- A registered user whose password abc123 satisfies the signup policy. -/
def annUser : User := { id := 1, name := "Ann", email := "ann@x.com", password := bcryptHash "abc123" }

/-- Credential store holding exactly annUser. -/
def annStore : List User := [annUser]

/-- CreatePost payload naming another owner with every field valid. -/
def reqMismatchValid : CreatePostReq :=
  { userId := some "u2", postName := some "Cat", description := some "desc",
    tags := none, image := none }

/-- CreatePost payload naming another owner with an invalid (empty)
description. -/
def reqMismatchInvalid : CreatePostReq :=
  { userId := some "u2", postName := some "Cat", description := some "",
    tags := none, image := none }

/-- Well-formed CreatePost payload carrying a small GIF image. -/
def reqGif : CreatePostReq :=
  { userId := some "u1", postName := some "Cat", description := some "desc",
    tags := none, image := some { originalname := "photo.gif", mimetype := "image/gif", size := 100 } }

/-- Well-formed CreatePost payload whose file extension is outside
jpeg/jpg/png but contains png as a substring, with a png content type. -/
def reqFakePng : CreatePostReq :=
  { userId := some "u1", postName := some "Cat", description := some "desc",
    tags := none, image := some { originalname := "photo.fakepng", mimetype := "image/png", size := 100 } }

/-- Well-formed CreatePost payload carrying a 6 MiB png image. -/
def reqBigPng : CreatePostReq :=
  { userId := some "u1", postName := some "Cat", description := some "desc",
    tags := none, image := some { originalname := "photo.png", mimetype := "image/png", size := 6 * 1024 * 1024 } }

/-- A post every trivial filter matches. -/
def demoPost : Post :=
  { userId := "u1", postName := "post", description := "desc", uploadTime := 5,
    tags := ["news"], imagePath := none }

/-- A content store with 25 identical matching posts. -/
def store25 : List Post := List.replicate 25 demoPost

/-- Filters with no criteria, page 2, limit 10. -/
def filtersPage2 : Filters :=
  { searchText := none, startDate := none, endDate := none, tags := none, page := 2, limit := 10 }

/-- Filters with no criteria, page 1, limit 10. -/
def filtersPlain : Filters :=
  { searchText := none, startDate := none, endDate := none, tags := none, page := 1, limit := 10 }

/-- Filters whose startDate (10) is after the endDate (5). -/
def filtersBadRange : Filters :=
  { searchText := none, startDate := some 10, endDate := some 5, tags := none, page := 1, limit := 10 }

/-- Two distinct posts sharing the same upload timestamp. -/
def tiePostA : Post :=
  { userId := "u1", postName := "first", description := "d", uploadTime := 5,
    tags := [], imagePath := none }

def tiePostB : Post :=
  { userId := "u1", postName := "second", description := "d", uploadTime := 5,
    tags := [], imagePath := none }

/-- Content store holding tiePostA then tiePostB in insertion order. -/
def tieStore : List Post := [tiePostA, tiePostB]

/-! ## Helper lemmas -/

theorem listStarts_append (pat l : List Char) : listStarts pat (pat ++ l) = true := by
  induction pat with
  | nil => rfl
  | cons p ps ih => simp [listStarts, ih]

theorem replaceFirstL_of_not_sub (pat repl : List Char) (l : List Char)
    (h : listHasSub pat l = false) : replaceFirstL pat repl l = l := by
  induction l with
  | nil => rfl
  | cons c cs ih =>
    rw [listHasSub, Bool.or_eq_false_iff] at h
    rw [replaceFirstL, if_neg (by simp [h.1]), ih h.2]

theorem replaceFirstL_append (p : Char) (ps repl l : List Char) :
    replaceFirstL (p :: ps) repl ((p :: ps) ++ l) = repl ++ l := by
  have hstart : listStarts (p :: ps) ((p :: ps) ++ l) = true := listStarts_append _ _
  have hdrop : ((p :: ps) ++ l).drop (p :: ps).length = l := List.drop_left _ _
  rw [List.cons_append, replaceFirstL, if_pos (by simpa using hstart)]
  rw [← List.cons_append, hdrop]

theorem find?_append_of_none {α : Type _} (p : α → Bool) (l₁ l₂ : List α)
    (h : l₁.find? p = none) : (l₁ ++ l₂).find? p = l₂.find? p := by
  induction l₁ with
  | nil => rfl
  | cons a l ih =>
    cases hp : p a with
    | true => simp [List.find?, hp] at h
    | false =>
      simp only [List.find?, hp] at h
      simp only [List.cons_append, List.find?, hp]
      exact ih h

theorem sortByUpload_model : mongoSortModel sortByUpload := fun l =>
  ⟨List.perm_insertionSort byUploadDesc l, List.sorted_insertionSort byUploadDesc l⟩

theorem sortAlt_model : mongoSortModel sortAlt := fun l =>
  ⟨(List.perm_insertionSort byUploadDesc l.reverse).trans (List.reverse_perm l),
   List.sorted_insertionSort byUploadDesc l.reverse⟩

theorem le_mul_pagesOf (t l : Nat) (hl : 1 ≤ l) : t ≤ l * pagesOf t l := by
  cases t with
  | zero => exact Nat.zero_le _
  | succ s =>
    have h0 : 0 < l := hl
    have h1 : s + 1 + l - 1 = s + l := by omega
    have h2 : (s + l) / l = s / l + 1 := Nat.add_div_right s h0
    have h3 : s < s / l * l + l := Nat.lt_div_mul_add h0
    calc s + 1 ≤ s / l * l + l := h3
    _ = l * (s / l + 1) := by ring
    _ = l * pagesOf (s + 1) l := by rw [pagesOf, h1, h2]

theorem pagesOf_le (t l m : Nat) (hl : 1 ≤ l) (h : t ≤ l * m) : pagesOf t l ≤ m := by
  have h0 : 0 < l := hl
  rw [pagesOf, Nat.div_le_iff_le_mul_add_pred h0]
  omega

/-! ## Claim C1: ownership check of CreatePost -/

/-- C1, counterexample: a CreatePost request whose submitted owner id (u2)
differs from the authenticated caller (u1) but whose description is empty is
answered with the 400 validation failure, not the 403 AuthorizationError the
claim requires for every such request. -/
theorem c1_counterexample :
    createPost "u1" reqMismatchInvalid 0 [] = (.validationFailed, []) ∧
    createStatus .validationFailed = 400 ∧
    createStatus .validationFailed ≠ 403 ∧
    (CreateOutcome.validationFailed ≠ .forbidden) := by
  refine ⟨by decide, rfl, by decide, by decide⟩

/-- C1, amended: whenever the submitted owner id differs from the
authenticated caller id, no post record is ever persisted and the request
never succeeds; and when the upload stage accepts the request and the body
passes validation, the response is exactly the 403 AuthorizationError. -/
theorem c1_owner_check (authId : String) (req : CreatePostReq) (now : Nat)
    (store : List Post) (uid : String)
    (hu : req.userId = some uid) (hne : authId ≠ uid) :
    (createPost authId req now store).2 = store ∧
    (∀ p, (createPost authId req now store).1 ≠ .created p) ∧
    (∀ file, multerSingle req.image = .ok file → postBodyValid req = true →
      (createPost authId req now store).1 = .forbidden) := by
  cases hmul : multerSingle req.image with
  | rejected => simp [createPost, hmul]
  | tooLarge => simp [createPost, hmul]
  | ok file =>
    cases hpn : req.postName with
    | none =>
      refine ⟨?_, ?_, ?_⟩
      · simp [createPost, hmul, hu, hpn]
      · simp [createPost, hmul, hu, hpn]
      · intro file2 _ hvalid
        rw [postBodyValid, hpn] at hvalid
        simp at hvalid
    | some pn =>
      cases hds : req.description with
      | none =>
        refine ⟨?_, ?_, ?_⟩
        · simp [createPost, hmul, hu, hpn, hds]
        · simp [createPost, hmul, hu, hpn, hds]
        · intro file2 _ hvalid
          rw [postBodyValid, hds] at hvalid
          simp at hvalid
      | some ds =>
        by_cases hvb : uid.data.isEmpty || (strTrim pn).data.isEmpty || (strTrim ds).data.isEmpty
        · refine ⟨?_, ?_, ?_⟩
          · simp [createPost, hmul, hu, hpn, hds, hvb]
          · simp [createPost, hmul, hu, hpn, hds, hvb]
          · intro file2 _ hvalid
            rw [postBodyValid, hu, hpn, hds] at hvalid
            simp only [Bool.and_eq_true, Bool.not_eq_true'] at hvalid
            simp [hvalid.1.1, hvalid.1.2, hvalid.2] at hvb
        · refine ⟨?_, ?_, ?_⟩
          · simp [createPost, hmul, hu, hpn, hds, hvb, hne]
          · simp [createPost, hmul, hu, hpn, hds, hvb, hne]
          · intro file2 _ _
            simp [createPost, hmul, hu, hpn, hds, hvb, hne]

/-- C1, witness: with a fully valid payload owned by u2 and caller u1, the
outcome is the 403 forbidden response and the store is unchanged. -/
theorem c1_owner_check_witness :
    (createPost "u1" reqMismatchValid 0 []).1 = .forbidden ∧
    (createPost "u1" reqMismatchValid 0 []).2 = [] := by
  obtain ⟨h1, _, h3⟩ :=
    c1_owner_check "u1" reqMismatchValid 0 [] "u2" rfl (by decide)
  exact ⟨h3 none rfl (by decide), h1⟩

/-! ## Claim C2: login failure parity -/

/-- C2: for login requests passing validation, the response when no user
matches the email and the response when a user matches but the password
fails the hash comparison are the same literal 401 response, with identical
message and error fields; hence any two such failures are identical. -/
theorem c2_login_parity (store1 : List User) (e1 p1 : String)
    (store2 : List User) (e2 p2 secret : String) (now : Nat) (u : User)
    (hv1 : loginValidationOk e1 p1 = true)
    (hv2 : loginValidationOk e2 p2 = true)
    (hmiss : findOne store1 (emNorm e1) = none)
    (hhit : findOne store2 (emNorm e2) = some u)
    (hbad : bcryptCompare p2 u.password = false) :
    login store1 e1 p1 secret now =
      .authFailed 401 "Authentication failed" "Invalid email or password" ∧
    login store2 e2 p2 secret now =
      .authFailed 401 "Authentication failed" "Invalid email or password" ∧
    login store1 e1 p1 secret now = login store2 e2 p2 secret now := by
  have h1 : login store1 e1 p1 secret now =
      .authFailed 401 "Authentication failed" "Invalid email or password" := by
    simp [login, hv1, hmiss]
  have h2 : login store2 e2 p2 secret now =
      .authFailed 401 "Authentication failed" "Invalid email or password" := by
    simp [login, hv2, hhit, hbad]
  exact ⟨h1, h2, h1.trans h2.symm⟩

/-- C2, witness: against the store holding only Ann, logging in with an
unknown address and logging in as Ann with a wrong password produce the same
401 response. -/
theorem c2_login_parity_witness :
    login annStore "bob@x.com" "wrong1" "sec" 0 =
      .authFailed 401 "Authentication failed" "Invalid email or password" ∧
    login annStore "ann@x.com" "wrong1" "sec" 0 =
      .authFailed 401 "Authentication failed" "Invalid email or password" ∧
    login [] "bob@x.com" "wrong1" "sec" 0 = login annStore "ann@x.com" "wrong1" "sec" 0 := by
  obtain ⟨h1, h2, -⟩ :=
    c2_login_parity [] "bob@x.com" "wrong1" annStore "ann@x.com" "wrong1" "sec" 0 annUser
      (by decide) (by decide) (by decide) (by decide) (by decide)
  exact ⟨by decide, h2, h1.trans h2.symm⟩

/-! ## Claim C3: upload rejection of oversized or wrongly-typed images -/

/-- C3: evaluation at the failing input.  A CreatePost request with a GIF
attachment is rejected by the multer fileFilter with a plain Error, which
the router error handler does not recognise as a MulterError, so the client
receives the 500 Internal-server-error response instead of the 400
UploadError the claim (and the spec error taxonomy) require; the oversize
case is correctly answered with 400, and an extension outside the allowed
set that merely contains png as a substring is accepted outright. -/
theorem c3_filter_mapping_eval :
    createPost "u1" reqGif 0 [] = (.filterRejected, []) ∧
    createStatus .filterRejected = 500 ∧
    createMessage .filterRejected = "Internal server error" ∧
    createStatus .filterRejected ≠ 400 ∧
    createPost "u1" reqBigPng 0 [] = (.fileTooLarge, []) ∧
    createStatus .fileTooLarge = 400 ∧
    (∃ p, (createPost "u1" reqFakePng 0 []).1 = .created p) := by
  refine ⟨by decide, rfl, rfl, by decide, by decide, rfl, ⟨_, rfl⟩⟩

/-! ## Claim C4: pagination of ListPosts -/

/-- C4: for any database sort behaviour and any valid filters, the slice
returned is exactly the window of the sorted filtered result starting at
offset (page - 1) * limit, it holds at most limit posts (its exact length
is min limit (total - offset)), total is the full filtered count independent
of the page, and pages is the ceiling of total / limit, characterised as the
least m with total at most limit * m. -/
theorem c4_pagination (impl : List Post → List Post) (himpl : mongoSortModel impl)
    (store : List Post) (f : Filters)
    (_hp : 1 ≤ f.page) (hl : 1 ≤ f.limit) (_hl2 : f.limit ≤ 100)
    (hd : dateRangeInvalid f = false) :
    ∃ posts,
      getPostsWith impl store f =
        .ok posts (store.filter (postMatches f)).length f.page
          (pagesOf (store.filter (postMatches f)).length f.limit) f.limit ∧
      posts =
        ((impl (store.filter (postMatches f))).drop ((f.page - 1) * f.limit)).take f.limit ∧
      posts.length =
        min f.limit ((store.filter (postMatches f)).length - (f.page - 1) * f.limit) ∧
      (store.filter (postMatches f)).length ≤
        f.limit * pagesOf (store.filter (postMatches f)).length f.limit ∧
      ∀ m, (store.filter (postMatches f)).length ≤ f.limit * m →
        pagesOf (store.filter (postMatches f)).length f.limit ≤ m := by
  refine ⟨((impl (store.filter (postMatches f))).drop ((f.page - 1) * f.limit)).take f.limit,
    ?_, rfl, ?_, le_mul_pagesOf _ _ hl, fun m hm => pagesOf_le _ _ m hl hm⟩
  · simp [getPostsWith, hd]
  · rw [List.length_take, List.length_drop, (himpl (store.filter (postMatches f))).1.length_eq]

/-- C4, witness: on a store of 25 matching posts with page 2 and limit 10,
the handler returns exactly 10 posts, total 25 and pages 3. -/
theorem c4_pagination_witness :
    ∃ posts,
      getPostsWith sortByUpload store25 filtersPage2 = .ok posts 25 2 3 10 ∧
      posts.length = 10 := by
  obtain ⟨posts, h1, -, h3, -, -⟩ :=
    c4_pagination sortByUpload sortByUpload_model store25 filtersPage2
      (by decide) (by decide) (by decide) (by decide)
  refine ⟨posts, ?_, ?_⟩
  · have hc : (store25.filter (postMatches filtersPage2)).length = 25 := by decide
    rw [hc] at h1
    exact h1
  · have hc : min filtersPage2.limit
        ((store25.filter (postMatches filtersPage2)).length -
          (filtersPage2.page - 1) * filtersPage2.limit) = 10 := by decide
    rw [hc] at h3
    exact h3

/-! ## Claim C5: inverted date range is rejected -/

/-- C5: whenever both dates are supplied and startDate is strictly after
endDate, the handler answers the 400 Invalid-date-range response and no ok
response (hence no posts) is produced, for every database sort behaviour and
every store. -/
theorem c5_date_range (impl : List Post → List Post) (store : List Post)
    (f : Filters) (s e : Nat)
    (hs : f.startDate = some s) (he : f.endDate = some e) (hlt : e < s) :
    getPostsWith impl store f =
      .badRequest "Invalid date range" "startDate cannot be after endDate" ∧
    listStatus (getPostsWith impl store f) = 400 ∧
    ∀ posts total page pages limit,
      getPostsWith impl store f ≠ .ok posts total page pages limit := by
  have hbad : dateRangeInvalid f = true := by
    rw [dateRangeInvalid, hs, he]
    simpa using hlt
  have h1 : getPostsWith impl store f =
      .badRequest "Invalid date range" "startDate cannot be after endDate" := by
    simp [getPostsWith, hbad]
  refine ⟨h1, by rw [h1]; rfl, ?_⟩
  intro posts total page pages limit hok
  rw [h1] at hok
  exact ListOutcome.noConfusion hok

/-- C5, witness: filters with startDate 10 and endDate 5 are rejected with
the 400 Invalid-date-range response on the 25-post store. -/
theorem c5_date_range_witness :
    getPostsWith sortByUpload store25 filtersBadRange =
      .badRequest "Invalid date range" "startDate cannot be after endDate" ∧
    listStatus (getPostsWith sortByUpload store25 filtersBadRange) = 400 := by
  obtain ⟨h1, h2, -⟩ :=
    c5_date_range sortByUpload store25 filtersBadRange 10 5 rfl rfl (by decide)
  exact ⟨h1, h2⟩

/-! ## Claim C6: signup summary shape and subsequent login -/

/-- C6: for every valid signup input against a store with no user under the
normalized email, signup succeeds, the returned user summary carries exactly
the keys id, name and email and no password entry, and a login with the
same email and password against the updated store succeeds with a token. -/
theorem c6_signup_then_login (store : List User)
    (name email password secret : String) (now now2 uid : Nat)
    (hv : signupValidationOk name email password = true)
    (hfresh : findOne store (emNorm email) = none) :
    ∃ token user store2,
      signup store name email password secret now uid = (.created token user, store2) ∧
      user.map Prod.fst = ["id", "name", "email"] ∧
      (∀ v, ("password", v) ∉ user) ∧
      ∃ token2 user2, login store2 email password secret now2 = .ok 200 token2 user2 := by
  rw [signupValidationOk, Bool.and_eq_true, Bool.and_eq_true] at hv
  obtain ⟨⟨hname, hemail⟩, hpass⟩ := hv
  have hv' : signupValidationOk name email password = true := by
    rw [signupValidationOk, Bool.and_eq_true, Bool.and_eq_true]
    exact ⟨⟨hname, hemail⟩, hpass⟩
  have hsignup : signup store name email password secret now uid =
      (.created (jwtSign uid secret (now + 3600))
        [("id", Nat.repr uid), ("name", strTrim name), ("email", emNorm email)],
       store ++ [{ id := uid, name := strTrim name, email := emNorm email,
                   password := bcryptHash password }]) := by
    simp [signup, hv', hfresh]
  refine ⟨_, _, _, hsignup, rfl, ?_, ?_⟩
  · intro v hmem
    simp only [List.mem_cons, List.not_mem_nil, or_false] at hmem
    rcases hmem with h | h | h <;>
      · rw [Prod.mk.injEq] at h
        exact absurd h.1 (by decide)
  · have hlen : 6 ≤ password.data.length := by
      rw [passwordValid, Bool.and_eq_true, Bool.and_eq_true] at hpass
      exact of_decide_eq_true hpass.1.1
    have hne : password.data ≠ [] := by
      intro h0
      rw [h0] at hlen
      simp at hlen
    have hempty : password.data.isEmpty = false := by
      cases hpd : password.data with
      | nil => exact absurd hpd hne
      | cons a l => rfl
    have hlv : loginValidationOk email password = true := by
      rw [loginValidationOk, Bool.and_eq_true]
      exact ⟨hemail, by rw [hempty]; rfl⟩
    have hfind : findOne
        (store ++ [{ id := uid, name := strTrim name, email := emNorm email,
                     password := bcryptHash password }]) (emNorm email) =
        some { id := uid, name := strTrim name, email := emNorm email,
               password := bcryptHash password } := by
      rw [findOne, find?_append_of_none _ _ _ hfresh]
      simp [List.find?]
    have hcmp : bcryptCompare password (bcryptHash password) = true := by
      simp [bcryptCompare]
    refine ⟨jwtSign uid secret (now2 + 3600),
      [("id", Nat.repr uid), ("name", strTrim name), ("email", emNorm email)], ?_⟩
    simp [login, hlv, hfind, hcmp]

/-- C6, witness: signing Ann up on an empty store returns the three-field
summary and logging in with the same credentials then succeeds. -/
theorem c6_signup_then_login_witness :
    ∃ token user store2,
      signup [] "Ann" "Ann@X.com" "abc123" "sec" 0 1 = (.created token user, store2) ∧
      user.map Prod.fst = ["id", "name", "email"] ∧
      (∀ v, ("password", v) ∉ user) ∧
      ∃ token2 user2, login store2 "Ann@X.com" "abc123" "sec" 7 = .ok 200 token2 user2 :=
  c6_signup_then_login [] "Ann" "Ann@X.com" "abc123" "sec" 0 7 1 (by decide) (by decide)

/-! ## Claim C7: duplicate email on signup -/

/-- C7, counterexample: signing up Bob with the already-registered address
of Ann but a password violating the password policy is answered with the
400 Validation-failed response, not the ConflictError (Email-already-exists)
response the claim requires regardless of the submitted password. -/
theorem c7_counterexample :
    signup annStore "Bob" "Ann@X.com" "x" "sec" 0 2 = (.badValidation, annStore) ∧
    signupMessage .badValidation ≠ signupMessage .emailExists ∧
    (SignupOut.badValidation ≠ SignupOut.emailExists) := by
  refine ⟨by decide, by decide, by decide⟩

/-- C7, amended: for every signup input passing validation whose normalized
email is already registered, signup answers the 400 Email-already-exists
(ConflictError) response and leaves the credential store unchanged,
regardless of which policy-conforming password was submitted; with a
password failing validation the request is instead rejected as a 400
validation failure (also leaving the store unchanged). -/
theorem c7_duplicate_email (store : List User)
    (name email password secret : String) (now uid : Nat) (u : User)
    (hv : signupValidationOk name email password = true)
    (hdup : findOne store (emNorm email) = some u) :
    signup store name email password secret now uid = (.emailExists, store) ∧
    signupStatus .emailExists = 400 ∧
    signupMessage .emailExists = "Email already exists" := by
  refine ⟨?_, rfl, rfl⟩
  simp [signup, hv, hdup]

/-- C7, witness: a duplicate signup for Ann with a different valid password
is answered with the Email-already-exists response and the store is kept. -/
theorem c7_duplicate_email_witness :
    signup annStore "Ann Again" "  ANN@X.COM " "zzz999" "sec" 3 2 = (.emailExists, annStore) ∧
    signupStatus .emailExists = 400 :=
  ⟨(c7_duplicate_email annStore "Ann Again" "  ANN@X.COM " "zzz999" "sec" 3 2 annUser
      (by decide) (by decide)).1, rfl⟩

/-! ## Claim C8: token verifier success and failure characterisation -/

/-- C8: the middleware answers 401 exactly when the Authorization header
yields no token (absent header or empty stripped value) or the token fails
verification; it attaches the decoded payload exactly when the extracted
token verifies; and every failure status is 401.  The auth definition takes
no credential-store argument: the middleware performs no user lookup. -/
theorem c8_token_verifier (secret : String) (now : Nat) (hdr : Option String) :
    (∀ p, auth secret now hdr = .ok p ↔
      ∃ t, extractToken hdr = some t ∧ jwtVerify t secret now = some p) ∧
    ((∃ m, auth secret now hdr = .unauthorized 401 m) ↔
      extractToken hdr = none ∨
        ∃ t, extractToken hdr = some t ∧ jwtVerify t secret now = none) ∧
    (∀ s m, auth secret now hdr = .unauthorized s m → s = 401) := by
  cases hdr with
  | none =>
    refine ⟨fun p => ?_, ?_, fun s m hm => ?_⟩
    · constructor
      · intro h0; exact absurd h0 (by simp [auth])
      · rintro ⟨t, ht, -⟩; exact absurd ht (by simp [extractToken])
    · constructor
      · intro _; exact Or.inl (by simp [extractToken])
      · intro _; exact ⟨"Authentication required", by simp [auth]⟩
    · have hauth : auth secret now none = .unauthorized 401 "Authentication required" := by
        simp [auth]
      rw [hauth] at hm
      injection hm with h1 _
      exact h1.symm
  | some hd =>
    by_cases he : (replaceFirstStr "Bearer " "" hd).data.isEmpty = true
    · have hauth : auth secret now (some hd) = .unauthorized 401 "Authentication required" := by
        simp [auth, he]
      have hext : extractToken (some hd) = none := by simp [extractToken, he]
      refine ⟨fun p => ?_, ?_, fun s m hm => ?_⟩
      · constructor
        · intro h0; rw [hauth] at h0; exact AuthResult.noConfusion h0
        · rintro ⟨t, ht, -⟩; rw [hext] at ht; exact Option.noConfusion ht
      · constructor
        · intro _; exact Or.inl hext
        · intro _; exact ⟨"Authentication required", hauth⟩
      · rw [hauth] at hm
        injection hm with h1 _
        exact h1.symm
    · have hext : extractToken (some hd) = some (replaceFirstStr "Bearer " "" hd) := by
        simp [extractToken, he]
      cases hv : jwtVerify (replaceFirstStr "Bearer " "" hd) secret now with
      | none =>
        have hauth : auth secret now (some hd) = .unauthorized 401 "Invalid token" := by
          simp [auth, he, hv]
        refine ⟨fun p => ?_, ?_, fun s m hm => ?_⟩
        · constructor
          · intro h0; rw [hauth] at h0; exact AuthResult.noConfusion h0
          · rintro ⟨t, ht, hv'⟩
            rw [hext] at ht
            injection ht with ht
            subst ht
            rw [hv] at hv'
            exact Option.noConfusion hv'
        · exact ⟨fun _ => Or.inr ⟨_, hext, hv⟩, fun _ => ⟨"Invalid token", hauth⟩⟩
        · rw [hauth] at hm
          injection hm with h1 _
          exact h1.symm
      | some p0 =>
        have hauth : auth secret now (some hd) = .ok p0 := by
          simp [auth, he, hv]
        refine ⟨fun p => ?_, ?_, fun s m hm => ?_⟩
        · constructor
          · intro h0
            rw [hauth] at h0
            injection h0 with h0
            exact ⟨_, hext, by rw [← h0]; exact hv⟩
          · rintro ⟨t, ht, hv'⟩
            rw [hext] at ht
            injection ht with ht
            subst ht
            rw [hv] at hv'
            injection hv' with hv'
            rw [hauth, hv']
        · constructor
          · rintro ⟨m, hm⟩; rw [hauth] at hm; exact AuthResult.noConfusion hm
          · rintro (hnone | ⟨t, ht, hv'⟩)
            · rw [hext] at hnone; exact Option.noConfusion hnone
            · rw [hext] at ht
              injection ht with ht
              subst ht
              rw [hv] at hv'
              exact Option.noConfusion hv'
        · rw [hauth] at hm
          exact AuthResult.noConfusion hm

/-- C8, witness: a well-prefixed valid token authenticates and attaches the
payload, and an absent header is answered 401. -/
theorem c8_token_verifier_witness :
    auth "sec" 0 (some "Bearer jwt:7:100:sec") = .ok ⟨7⟩ ∧
    (∃ m, auth "sec" 0 none = .unauthorized 401 m) := by
  constructor
  · exact ((c8_token_verifier "sec" 0 (some "Bearer jwt:7:100:sec")).1 ⟨7⟩).mpr
      ⟨"jwt:7:100:sec", by decide, by decide⟩
  · exact ((c8_token_verifier "sec" 0 none).2.1).mpr (Or.inl (by decide))

/-! ## Claim C9: result ordering of ListPosts -/

/-- C9, counterexample: the query sorts only by uploadTime descending, so
both the insertion-order-preserving sort and the insertion-order-reversing
sort are legitimate database behaviours, and on a store with two posts of
equal upload timestamp they give different ListPosts results: the ordering
of equal-timestamp posts is not determined (in particular not pinned to
insertion order) by the code. -/
theorem c9_counterexample :
    mongoSortModel sortByUpload ∧ mongoSortModel sortAlt ∧
    getPostsWith sortByUpload tieStore filtersPlain ≠
      getPostsWith sortAlt tieStore filtersPlain :=
  ⟨sortByUpload_model, sortAlt_model, by decide⟩

/-- C9, amended: every successful ListPosts result is ordered by upload
timestamp newest first (pairwise non-increasing uploadTime); the relative
order of posts with equal timestamps is left unspecified by the query. -/
theorem c9_sorted_desc (impl : List Post → List Post) (himpl : mongoSortModel impl)
    (store : List Post) (f : Filters) (posts : List Post)
    (total page pages limit : Nat)
    (hok : getPostsWith impl store f = .ok posts total page pages limit) :
    posts.Pairwise byUploadDesc := by
  simp only [getPostsWith] at hok
  by_cases hd : dateRangeInvalid f = true
  · rw [if_pos hd] at hok
    exact absurd hok (by simp)
  · rw [if_neg hd] at hok
    simp only [ListOutcome.ok.injEq] at hok
    obtain ⟨hposts, -, -, -, -⟩ := hok
    have hsub : List.Sublist
        (((impl (store.filter (postMatches f))).drop ((f.page - 1) * f.limit)).take f.limit)
        (impl (store.filter (postMatches f))) :=
      (List.take_sublist _ _).trans (List.drop_sublist _ _)
    exact hposts ▸ ((himpl (store.filter (postMatches f))).2.sublist hsub)

/-- C9, witness: the stable sort behaviour on the two tied posts yields a
result that is pairwise non-increasing in uploadTime. -/
theorem c9_sorted_desc_witness :
    List.Pairwise byUploadDesc [tiePostA, tiePostB] :=
  c9_sorted_desc sortByUpload sortByUpload_model tieStore filtersPlain
    [tiePostA, tiePostB] 2 1 1 10 (by decide)

/-! ## Claim C10: the Bearer scheme is optional -/

/-- C10: the middleware removes only the first occurrence of the literal
Bearer-space substring, so for any token not containing that substring the
bare header and the Bearer-prefixed header are processed identically, and a
bare valid token authenticates the request with its decoded payload. -/
theorem c10_scheme_optional (t secret : String) (now : Nat)
    (h : strHasSub "Bearer " t = false) :
    auth secret now (some t) = auth secret now (some ("Bearer " ++ t)) ∧
    ∀ p, jwtVerify t secret now = some p → auth secret now (some t) = .ok p := by
  have hstrip1 : replaceFirstStr "Bearer " "" t = t := by
    cases t with
    | mk d =>
      rw [strHasSub] at h
      exact congrArg String.mk (replaceFirstL_of_not_sub _ _ _ h)
  have hstrip2 : replaceFirstStr "Bearer " "" ("Bearer " ++ t) = t := by
    cases t with
    | mk d =>
      have hdata : ("Bearer " ++ String.mk d).data = "Bearer ".data ++ d := rfl
      show String.mk (replaceFirstL "Bearer ".data "".data ("Bearer " ++ String.mk d).data) =
        String.mk d
      rw [hdata]
      have hB : "Bearer ".data = 'B' :: "earer ".data := rfl
      rw [hB, replaceFirstL_append]
      rfl
  constructor
  · simp only [auth]
    rw [hstrip1, hstrip2]
  · intro p hp
    have hne : t.data.isEmpty = false := by
      cases t with
      | mk d =>
        cases d with
        | nil =>
          have h0 : jwtVerify (String.mk []) secret now = none := rfl
          rw [h0] at hp
          exact Option.noConfusion hp
        | cons a l => rfl
    simp only [auth]
    rw [hstrip1, hne]
    simp [hp]

/-- C10, witness: a bare valid token with no Bearer prefix authenticates,
and is processed exactly like the prefixed header. -/
theorem c10_scheme_optional_witness :
    strHasSub "Bearer " "jwt:7:100:sec" = false ∧
    auth "sec" 0 (some "jwt:7:100:sec") = .ok ⟨7⟩ ∧
    auth "sec" 0 (some "jwt:7:100:sec") = auth "sec" 0 (some "Bearer jwt:7:100:sec") := by
  obtain ⟨h1, h2⟩ := c10_scheme_optional "jwt:7:100:sec" "sec" 0 (by decide)
  exact ⟨by decide, h2 ⟨7⟩ (by decide), h1⟩

end NapWorks
